import Mathlib

/-!
Verification of the `hsm-sys` FFI binding layer
(`edgelet/hsm-sys/src/lib.rs`): the HSM client capability tables
(TPM, X.509, Crypto), the tag constants, the module lifecycle
functions, the `repr(C)` layout checked by the bindgen layout tests,
and the spec-level contracts of the random-number and
derive-and-sign operations.

The binding layer is pure declarations: C function-pointer types,
`repr(C)` structs of optional entries, integer tag constants, and
`extern` lifecycle functions.  We embed the declarations themselves:
a C function-pointer type becomes a `CFnSig` (argument list and
return type), a table entry becomes `Option (CFnPtr sig)`, and each
`repr(C)` struct becomes a Lean structure with the same fields in
the same order, together with a descriptor list recording the
declaration order used by the layout model.
-/

/-- The C types that appear in the FFI signatures of the binding layer. -/
inductive CType where
  | void
  | cInt
  | usize
  | isize
  | handle
  | constUCharPtr
  | mutUCharPtr
  | mutMutUCharPtr
  | mutUSizePtr
  | mutISizePtr
  | mutCharPtr
  | constCharPtr
  | constSizedBufferPtr
  | mutSizedBufferPtr
  | certPropsHandle
  | certHandle
  | mutVoidPtr
  deriving DecidableEq

/-- A C function signature: argument types in order, and the return type. -/
structure CFnSig where
  args : List CType
  ret : CType
  deriving DecidableEq

/-- A non-null C function pointer carrying its signature as a phantom index. -/
structure CFnPtr (sig : CFnSig) where
  addr : Nat
  deriving DecidableEq

/-- Signature of `HSM_CLIENT_CREATE`: `fn() -> HSM_CLIENT_HANDLE`. -/
def HSM_CLIENT_CREATE_SIG : CFnSig := ⟨[], CType.handle⟩

/-- Signature of `HSM_CLIENT_DESTROY`: `fn(handle)`. -/
def HSM_CLIENT_DESTROY_SIG : CFnSig := ⟨[CType.handle], CType.void⟩

/-- Signature of `HSM_CLIENT_FREE_BUFFER`: `fn(buffer: *mut c_void)`. -/
def HSM_CLIENT_FREE_BUFFER_SIG : CFnSig := ⟨[CType.mutVoidPtr], CType.void⟩

/-- Signature of `HSM_CLIENT_ACTIVATE_IDENTITY_KEY`. -/
def HSM_CLIENT_ACTIVATE_IDENTITY_KEY_SIG : CFnSig :=
  ⟨[CType.handle, CType.constUCharPtr, CType.usize], CType.cInt⟩

/-- Signature of `HSM_CLIENT_GET_ENDORSEMENT_KEY`. -/
def HSM_CLIENT_GET_ENDORSEMENT_KEY_SIG : CFnSig :=
  ⟨[CType.handle, CType.mutMutUCharPtr, CType.mutUSizePtr], CType.cInt⟩

/-- Signature of `HSM_CLIENT_GET_STORAGE_ROOT_KEY`. -/
def HSM_CLIENT_GET_STORAGE_ROOT_KEY_SIG : CFnSig :=
  ⟨[CType.handle, CType.mutMutUCharPtr, CType.mutUSizePtr], CType.cInt⟩

/-- Signature of `HSM_CLIENT_SIGN_WITH_IDENTITY`. -/
def HSM_CLIENT_SIGN_WITH_IDENTITY_SIG : CFnSig :=
  ⟨[CType.handle, CType.constUCharPtr, CType.usize, CType.mutMutUCharPtr,
    CType.mutUSizePtr], CType.cInt⟩

/-- Signature of `HSM_CLIENT_DERIVE_AND_SIGN_WITH_IDENTITY`. -/
def HSM_CLIENT_DERIVE_AND_SIGN_WITH_IDENTITY_SIG : CFnSig :=
  ⟨[CType.handle, CType.constUCharPtr, CType.usize, CType.constUCharPtr,
    CType.usize, CType.mutMutUCharPtr, CType.mutUSizePtr], CType.cInt⟩

/-- Signature of `HSM_CLIENT_GET_CERTIFICATE`: `fn(handle) -> *mut c_char`. -/
def HSM_CLIENT_GET_CERTIFICATE_SIG : CFnSig := ⟨[CType.handle], CType.mutCharPtr⟩

/-- Signature of `HSM_CLIENT_GET_CERT_KEY`: `fn(handle) -> *mut c_char`. -/
def HSM_CLIENT_GET_CERT_KEY_SIG : CFnSig := ⟨[CType.handle], CType.mutCharPtr⟩

/-- Signature of `HSM_CLIENT_GET_COMMON_NAME`: `fn(handle) -> *mut c_char`. -/
def HSM_CLIENT_GET_COMMON_NAME_SIG : CFnSig := ⟨[CType.handle], CType.mutCharPtr⟩

/-- Signature of `HSM_CLIENT_GET_RANDOM_NUMBER_LIMITS`: the two limit
out-parameters are `*mut isize`. -/
def HSM_CLIENT_GET_RANDOM_NUMBER_LIMITS_SIG : CFnSig :=
  ⟨[CType.handle, CType.mutISizePtr, CType.mutISizePtr], CType.cInt⟩

/-- Signature of `HSM_CLIENT_GET_RANDOM_NUMBER`: the out-parameter is
`*mut usize`. -/
def HSM_CLIENT_GET_RANDOM_NUMBER_SIG : CFnSig :=
  ⟨[CType.handle, CType.mutUSizePtr], CType.cInt⟩

/-- Signature of `HSM_CLIENT_CREATE_MASTER_ENCRYPTION_KEY`. -/
def HSM_CLIENT_CREATE_MASTER_ENCRYPTION_KEY_SIG : CFnSig :=
  ⟨[CType.handle], CType.cInt⟩

/-- Signature of `HSM_CLIENT_DESTROY_MASTER_ENCRYPTION_KEY`. -/
def HSM_CLIENT_DESTROY_MASTER_ENCRYPTION_KEY_SIG : CFnSig :=
  ⟨[CType.handle], CType.cInt⟩

/-- Signature of `HSM_CLIENT_ENCRYPT_DATA`. -/
def HSM_CLIENT_ENCRYPT_DATA_SIG : CFnSig :=
  ⟨[CType.handle, CType.constSizedBufferPtr, CType.constSizedBufferPtr,
    CType.constSizedBufferPtr, CType.constSizedBufferPtr,
    CType.mutSizedBufferPtr], CType.cInt⟩

/-- Signature of `HSM_CLIENT_DECRYPT_DATA`. -/
def HSM_CLIENT_DECRYPT_DATA_SIG : CFnSig :=
  ⟨[CType.handle, CType.constSizedBufferPtr, CType.constSizedBufferPtr,
    CType.constSizedBufferPtr, CType.constSizedBufferPtr,
    CType.mutSizedBufferPtr], CType.cInt⟩

/-- Signature of `HSM_CLIENT_CREATE_CERTIFICATE`. -/
def HSM_CLIENT_CREATE_CERTIFICATE_SIG : CFnSig :=
  ⟨[CType.handle, CType.certPropsHandle], CType.certHandle⟩

/-- Signature of `HSM_CLIENT_DESTROY_CERTIFICATE`:
`fn(handle, cert_handle)`. -/
def HSM_CLIENT_DESTROY_CERTIFICATE_SIG : CFnSig :=
  ⟨[CType.handle, CType.certHandle], CType.void⟩

/-- Signature of `HSM_CLIENT_DESTROY_CERTIFICATE_BY_ID`:
`fn(id: *const c_char)`. -/
def HSM_CLIENT_DESTROY_CERTIFICATE_BY_ID_SIG : CFnSig :=
  ⟨[CType.constCharPtr], CType.void⟩

/-- All `pub type ... = Option<unsafe extern fn ...>` operation-type
declarations of the binding layer, in source order, each with its
signature. -/
def declaredOperationTypes : List (String × CFnSig) :=
  [("HSM_CLIENT_CREATE", HSM_CLIENT_CREATE_SIG),
   ("HSM_CLIENT_DESTROY", HSM_CLIENT_DESTROY_SIG),
   ("HSM_CLIENT_FREE_BUFFER", HSM_CLIENT_FREE_BUFFER_SIG),
   ("HSM_CLIENT_ACTIVATE_IDENTITY_KEY", HSM_CLIENT_ACTIVATE_IDENTITY_KEY_SIG),
   ("HSM_CLIENT_GET_ENDORSEMENT_KEY", HSM_CLIENT_GET_ENDORSEMENT_KEY_SIG),
   ("HSM_CLIENT_GET_STORAGE_ROOT_KEY", HSM_CLIENT_GET_STORAGE_ROOT_KEY_SIG),
   ("HSM_CLIENT_SIGN_WITH_IDENTITY", HSM_CLIENT_SIGN_WITH_IDENTITY_SIG),
   ("HSM_CLIENT_DERIVE_AND_SIGN_WITH_IDENTITY",
    HSM_CLIENT_DERIVE_AND_SIGN_WITH_IDENTITY_SIG),
   ("HSM_CLIENT_GET_CERTIFICATE", HSM_CLIENT_GET_CERTIFICATE_SIG),
   ("HSM_CLIENT_GET_CERT_KEY", HSM_CLIENT_GET_CERT_KEY_SIG),
   ("HSM_CLIENT_GET_COMMON_NAME", HSM_CLIENT_GET_COMMON_NAME_SIG),
   ("HSM_CLIENT_GET_RANDOM_NUMBER_LIMITS",
    HSM_CLIENT_GET_RANDOM_NUMBER_LIMITS_SIG),
   ("HSM_CLIENT_GET_RANDOM_NUMBER", HSM_CLIENT_GET_RANDOM_NUMBER_SIG),
   ("HSM_CLIENT_CREATE_MASTER_ENCRYPTION_KEY",
    HSM_CLIENT_CREATE_MASTER_ENCRYPTION_KEY_SIG),
   ("HSM_CLIENT_DESTROY_MASTER_ENCRYPTION_KEY",
    HSM_CLIENT_DESTROY_MASTER_ENCRYPTION_KEY_SIG),
   ("HSM_CLIENT_ENCRYPT_DATA", HSM_CLIENT_ENCRYPT_DATA_SIG),
   ("HSM_CLIENT_DECRYPT_DATA", HSM_CLIENT_DECRYPT_DATA_SIG),
   ("HSM_CLIENT_CREATE_CERTIFICATE", HSM_CLIENT_CREATE_CERTIFICATE_SIG),
   ("HSM_CLIENT_DESTROY_CERTIFICATE", HSM_CLIENT_DESTROY_CERTIFICATE_SIG),
   ("HSM_CLIENT_DESTROY_CERTIFICATE_BY_ID",
    HSM_CLIENT_DESTROY_CERTIFICATE_BY_ID_SIG)]

/-- Entry type `HSM_CLIENT_CREATE = Option<fn ...>`. -/
abbrev HSM_CLIENT_CREATE : Type := Option (CFnPtr HSM_CLIENT_CREATE_SIG)

/-- Entry type `HSM_CLIENT_DESTROY = Option<fn ...>`. -/
abbrev HSM_CLIENT_DESTROY : Type := Option (CFnPtr HSM_CLIENT_DESTROY_SIG)

/-- Entry type `HSM_CLIENT_FREE_BUFFER = Option<fn ...>`. -/
abbrev HSM_CLIENT_FREE_BUFFER : Type := Option (CFnPtr HSM_CLIENT_FREE_BUFFER_SIG)

/-- Entry type `HSM_CLIENT_ACTIVATE_IDENTITY_KEY = Option<fn ...>`. -/
abbrev HSM_CLIENT_ACTIVATE_IDENTITY_KEY : Type :=
  Option (CFnPtr HSM_CLIENT_ACTIVATE_IDENTITY_KEY_SIG)

/-- Entry type `HSM_CLIENT_GET_ENDORSEMENT_KEY = Option<fn ...>`. -/
abbrev HSM_CLIENT_GET_ENDORSEMENT_KEY : Type :=
  Option (CFnPtr HSM_CLIENT_GET_ENDORSEMENT_KEY_SIG)

/-- Entry type `HSM_CLIENT_GET_STORAGE_ROOT_KEY = Option<fn ...>`. -/
abbrev HSM_CLIENT_GET_STORAGE_ROOT_KEY : Type :=
  Option (CFnPtr HSM_CLIENT_GET_STORAGE_ROOT_KEY_SIG)

/-- Entry type `HSM_CLIENT_SIGN_WITH_IDENTITY = Option<fn ...>`. -/
abbrev HSM_CLIENT_SIGN_WITH_IDENTITY : Type :=
  Option (CFnPtr HSM_CLIENT_SIGN_WITH_IDENTITY_SIG)

/-- Entry type `HSM_CLIENT_DERIVE_AND_SIGN_WITH_IDENTITY = Option<fn ...>`. -/
abbrev HSM_CLIENT_DERIVE_AND_SIGN_WITH_IDENTITY : Type :=
  Option (CFnPtr HSM_CLIENT_DERIVE_AND_SIGN_WITH_IDENTITY_SIG)

/-- Entry type `HSM_CLIENT_GET_CERTIFICATE = Option<fn ...>`. -/
abbrev HSM_CLIENT_GET_CERTIFICATE : Type :=
  Option (CFnPtr HSM_CLIENT_GET_CERTIFICATE_SIG)

/-- Entry type `HSM_CLIENT_GET_CERT_KEY = Option<fn ...>`. -/
abbrev HSM_CLIENT_GET_CERT_KEY : Type :=
  Option (CFnPtr HSM_CLIENT_GET_CERT_KEY_SIG)

/-- Entry type `HSM_CLIENT_GET_COMMON_NAME = Option<fn ...>`. -/
abbrev HSM_CLIENT_GET_COMMON_NAME : Type :=
  Option (CFnPtr HSM_CLIENT_GET_COMMON_NAME_SIG)

/-- Entry type `HSM_CLIENT_GET_RANDOM_NUMBER_LIMITS = Option<fn ...>`. -/
abbrev HSM_CLIENT_GET_RANDOM_NUMBER_LIMITS : Type :=
  Option (CFnPtr HSM_CLIENT_GET_RANDOM_NUMBER_LIMITS_SIG)

/-- Entry type `HSM_CLIENT_GET_RANDOM_NUMBER = Option<fn ...>`. -/
abbrev HSM_CLIENT_GET_RANDOM_NUMBER : Type :=
  Option (CFnPtr HSM_CLIENT_GET_RANDOM_NUMBER_SIG)

/-- Entry type `HSM_CLIENT_CREATE_MASTER_ENCRYPTION_KEY = Option<fn ...>`. -/
abbrev HSM_CLIENT_CREATE_MASTER_ENCRYPTION_KEY : Type :=
  Option (CFnPtr HSM_CLIENT_CREATE_MASTER_ENCRYPTION_KEY_SIG)

/-- Entry type `HSM_CLIENT_DESTROY_MASTER_ENCRYPTION_KEY = Option<fn ...>`. -/
abbrev HSM_CLIENT_DESTROY_MASTER_ENCRYPTION_KEY : Type :=
  Option (CFnPtr HSM_CLIENT_DESTROY_MASTER_ENCRYPTION_KEY_SIG)

/-- Entry type `HSM_CLIENT_ENCRYPT_DATA = Option<fn ...>`. -/
abbrev HSM_CLIENT_ENCRYPT_DATA : Type :=
  Option (CFnPtr HSM_CLIENT_ENCRYPT_DATA_SIG)

/-- Entry type `HSM_CLIENT_DECRYPT_DATA = Option<fn ...>`. -/
abbrev HSM_CLIENT_DECRYPT_DATA : Type :=
  Option (CFnPtr HSM_CLIENT_DECRYPT_DATA_SIG)

/-- Entry type `HSM_CLIENT_CREATE_CERTIFICATE = Option<fn ...>`. -/
abbrev HSM_CLIENT_CREATE_CERTIFICATE : Type :=
  Option (CFnPtr HSM_CLIENT_CREATE_CERTIFICATE_SIG)

/-- Entry type `HSM_CLIENT_DESTROY_CERTIFICATE = Option<fn ...>`. -/
abbrev HSM_CLIENT_DESTROY_CERTIFICATE : Type :=
  Option (CFnPtr HSM_CLIENT_DESTROY_CERTIFICATE_SIG)

/-- Entry type `HSM_CLIENT_DESTROY_CERTIFICATE_BY_ID = Option<fn ...>`. -/
abbrev HSM_CLIENT_DESTROY_CERTIFICATE_BY_ID : Type :=
  Option (CFnPtr HSM_CLIENT_DESTROY_CERTIFICATE_BY_ID_SIG)

/-- `CRYPTO_ENCODING_TAG` is `u32` in the source; the tag values are small
so we carry them as `Nat`. -/
abbrev CRYPTO_ENCODING_TAG := Nat

/-- `pub const CRYPTO_ENCODING_TAG_ASCII: CRYPTO_ENCODING_TAG = 0;` -/
def CRYPTO_ENCODING_TAG_ASCII : CRYPTO_ENCODING_TAG := 0

/-- `pub const CRYPTO_ENCODING_TAG_PEM: CRYPTO_ENCODING_TAG = 1;` -/
def CRYPTO_ENCODING_TAG_PEM : CRYPTO_ENCODING_TAG := 1

/-- `pub const CRYPTO_ENCODING_TAG_DER: CRYPTO_ENCODING_TAG = 2;` -/
def CRYPTO_ENCODING_TAG_DER : CRYPTO_ENCODING_TAG := 2

/-- `PRIVATE_KEY_TYPE_TAG` is `u32` in the source. -/
abbrev PRIVATE_KEY_TYPE_TAG := Nat

/-- `pub const PRIVATE_KEY_TYPE_TAG_PRIVATE_KEY_TYPE_UNKNOWN: ... = 0;` -/
def PRIVATE_KEY_TYPE_TAG_PRIVATE_KEY_TYPE_UNKNOWN : PRIVATE_KEY_TYPE_TAG := 0

/-- `pub const PRIVATE_KEY_TYPE_TAG_PRIVATE_KEY_TYPE_PAYLOAD: ... = 1;` -/
def PRIVATE_KEY_TYPE_TAG_PRIVATE_KEY_TYPE_PAYLOAD : PRIVATE_KEY_TYPE_TAG := 1

/-- `pub const PRIVATE_KEY_TYPE_TAG_PRIVATE_KEY_TYPE_REFERENCE: ... = 2;` -/
def PRIVATE_KEY_TYPE_TAG_PRIVATE_KEY_TYPE_REFERENCE : PRIVATE_KEY_TYPE_TAG := 2

/-- `CERTIFICATE_TYPE_TAG` is `u32` in the source. -/
abbrev CERTIFICATE_TYPE_TAG := Nat

/-- `pub const CERTIFICATE_TYPE_TAG_CERTIFICATE_TYPE_UNKNOWN: ... = 0;` -/
def CERTIFICATE_TYPE_TAG_CERTIFICATE_TYPE_UNKNOWN : CERTIFICATE_TYPE_TAG := 0

/-- `pub const CERTIFICATE_TYPE_TAG_CERTIFICATE_TYPE_CLIENT: ... = 1;` -/
def CERTIFICATE_TYPE_TAG_CERTIFICATE_TYPE_CLIENT : CERTIFICATE_TYPE_TAG := 1

/-- `pub const CERTIFICATE_TYPE_TAG_CERTIFICATE_TYPE_SERVER: ... = 2;` -/
def CERTIFICATE_TYPE_TAG_CERTIFICATE_TYPE_SERVER : CERTIFICATE_TYPE_TAG := 2

/-- `pub const CERTIFICATE_TYPE_TAG_CERTIFICATE_TYPE_CA: ... = 3;` -/
def CERTIFICATE_TYPE_TAG_CERTIFICATE_TYPE_CA : CERTIFICATE_TYPE_TAG := 3

/-- The `repr(C)` struct `HSM_CLIENT_TPM_INTERFACE_TAG`: the TPM capability
table, fields in declaration order. -/
structure HSM_CLIENT_TPM_INTERFACE_TAG where
  hsm_client_tpm_create : HSM_CLIENT_CREATE
  hsm_client_tpm_destroy : HSM_CLIENT_DESTROY
  hsm_client_activate_identity_key : HSM_CLIENT_ACTIVATE_IDENTITY_KEY
  hsm_client_get_ek : HSM_CLIENT_GET_ENDORSEMENT_KEY
  hsm_client_get_srk : HSM_CLIENT_GET_STORAGE_ROOT_KEY
  hsm_client_sign_with_identity : HSM_CLIENT_SIGN_WITH_IDENTITY
  hsm_client_derive_and_sign_with_identity : HSM_CLIENT_DERIVE_AND_SIGN_WITH_IDENTITY
  hsm_client_free_buffer : HSM_CLIENT_FREE_BUFFER
  deriving DecidableEq

/-- The `repr(C)` struct `HSM_CLIENT_X509_INTERFACE_TAG`: the X.509
capability table, fields in declaration order. -/
structure HSM_CLIENT_X509_INTERFACE_TAG where
  hsm_client_x509_create : HSM_CLIENT_CREATE
  hsm_client_x509_destroy : HSM_CLIENT_DESTROY
  hsm_client_get_cert : HSM_CLIENT_GET_CERTIFICATE
  hsm_client_get_key : HSM_CLIENT_GET_CERT_KEY
  hsm_client_get_common_name : HSM_CLIENT_GET_COMMON_NAME
  hsm_client_free_buffer : HSM_CLIENT_FREE_BUFFER
  deriving DecidableEq

/-- The `repr(C)` struct `HSM_CLIENT_CRYPTO_INTERFACE_TAG`: the Crypto
capability table, fields in declaration order. -/
structure HSM_CLIENT_CRYPTO_INTERFACE_TAG where
  hsm_client_crypto_create : HSM_CLIENT_CREATE
  hsm_client_crypto_destroy : HSM_CLIENT_DESTROY
  hsm_client_get_random_number_limits : HSM_CLIENT_GET_RANDOM_NUMBER_LIMITS
  hsm_client_get_random_number : HSM_CLIENT_GET_RANDOM_NUMBER
  hsm_client_create_master_encryption_key : HSM_CLIENT_CREATE_MASTER_ENCRYPTION_KEY
  hsm_client_destroy_master_encryption_key : HSM_CLIENT_DESTROY_MASTER_ENCRYPTION_KEY
  hsm_client_create_certificate : HSM_CLIENT_CREATE_CERTIFICATE
  hsm_client_destroy_certificate : HSM_CLIENT_DESTROY_CERTIFICATE
  hsm_client_encrypt_data : HSM_CLIENT_ENCRYPT_DATA
  hsm_client_decrypt_data : HSM_CLIENT_DECRYPT_DATA
  hsm_client_free_buffer : HSM_CLIENT_FREE_BUFFER
  deriving DecidableEq

/-- The `impl Default for HSM_CLIENT_TPM_INTERFACE_TAG`: every entry `None`. -/
def HSM_CLIENT_TPM_INTERFACE_TAG.default : HSM_CLIENT_TPM_INTERFACE_TAG :=
  ⟨none, none, none, none, none, none, none, none⟩

/-- The `impl Default for HSM_CLIENT_X509_INTERFACE_TAG`: every entry `None`. -/
def HSM_CLIENT_X509_INTERFACE_TAG.default : HSM_CLIENT_X509_INTERFACE_TAG :=
  ⟨none, none, none, none, none, none⟩

/-- The `impl Default for HSM_CLIENT_CRYPTO_INTERFACE_TAG`: every entry
`None`. -/
def HSM_CLIENT_CRYPTO_INTERFACE_TAG.default : HSM_CLIENT_CRYPTO_INTERFACE_TAG :=
  ⟨none, none, none, none, none, none, none, none, none, none, none⟩

/-- Field descriptors of `HSM_CLIENT_TPM_INTERFACE_TAG` in declaration
order: field name and the signature of its operation type. -/
def tpmInterfaceFields : List (String × CFnSig) :=
  [("hsm_client_tpm_create", HSM_CLIENT_CREATE_SIG),
   ("hsm_client_tpm_destroy", HSM_CLIENT_DESTROY_SIG),
   ("hsm_client_activate_identity_key", HSM_CLIENT_ACTIVATE_IDENTITY_KEY_SIG),
   ("hsm_client_get_ek", HSM_CLIENT_GET_ENDORSEMENT_KEY_SIG),
   ("hsm_client_get_srk", HSM_CLIENT_GET_STORAGE_ROOT_KEY_SIG),
   ("hsm_client_sign_with_identity", HSM_CLIENT_SIGN_WITH_IDENTITY_SIG),
   ("hsm_client_derive_and_sign_with_identity",
    HSM_CLIENT_DERIVE_AND_SIGN_WITH_IDENTITY_SIG),
   ("hsm_client_free_buffer", HSM_CLIENT_FREE_BUFFER_SIG)]

/-- Field descriptors of `HSM_CLIENT_X509_INTERFACE_TAG` in declaration
order. -/
def x509InterfaceFields : List (String × CFnSig) :=
  [("hsm_client_x509_create", HSM_CLIENT_CREATE_SIG),
   ("hsm_client_x509_destroy", HSM_CLIENT_DESTROY_SIG),
   ("hsm_client_get_cert", HSM_CLIENT_GET_CERTIFICATE_SIG),
   ("hsm_client_get_key", HSM_CLIENT_GET_CERT_KEY_SIG),
   ("hsm_client_get_common_name", HSM_CLIENT_GET_COMMON_NAME_SIG),
   ("hsm_client_free_buffer", HSM_CLIENT_FREE_BUFFER_SIG)]

/-- Field descriptors of `HSM_CLIENT_CRYPTO_INTERFACE_TAG` in declaration
order. -/
def cryptoInterfaceFields : List (String × CFnSig) :=
  [("hsm_client_crypto_create", HSM_CLIENT_CREATE_SIG),
   ("hsm_client_crypto_destroy", HSM_CLIENT_DESTROY_SIG),
   ("hsm_client_get_random_number_limits",
    HSM_CLIENT_GET_RANDOM_NUMBER_LIMITS_SIG),
   ("hsm_client_get_random_number", HSM_CLIENT_GET_RANDOM_NUMBER_SIG),
   ("hsm_client_create_master_encryption_key",
    HSM_CLIENT_CREATE_MASTER_ENCRYPTION_KEY_SIG),
   ("hsm_client_destroy_master_encryption_key",
    HSM_CLIENT_DESTROY_MASTER_ENCRYPTION_KEY_SIG),
   ("hsm_client_create_certificate", HSM_CLIENT_CREATE_CERTIFICATE_SIG),
   ("hsm_client_destroy_certificate", HSM_CLIENT_DESTROY_CERTIFICATE_SIG),
   ("hsm_client_encrypt_data", HSM_CLIENT_ENCRYPT_DATA_SIG),
   ("hsm_client_decrypt_data", HSM_CLIENT_DECRYPT_DATA_SIG),
   ("hsm_client_free_buffer", HSM_CLIENT_FREE_BUFFER_SIG)]

/-- The `extern "C"` module lifecycle functions, in source order, each with
its signature (`init` functions return `c_int`, `deinit` functions return
nothing). -/
def moduleLifecycleFuns : List (String × CFnSig) :=
  [("hsm_client_x509_init", ⟨[], CType.cInt⟩),
   ("hsm_client_x509_deinit", ⟨[], CType.void⟩),
   ("hsm_client_tpm_init", ⟨[], CType.cInt⟩),
   ("hsm_client_tpm_deinit", ⟨[], CType.void⟩),
   ("hsm_client_crypto_init", ⟨[], CType.cInt⟩),
   ("hsm_client_crypto_deinit", ⟨[], CType.void⟩)]

/-- Layout description of one `repr(C)` struct field, in units of one
pointer-sized word: field name, size in words, alignment in words. -/
structure CFieldLayout where
  name : String
  sizeWords : Nat
  alignWords : Nat
  deriving DecidableEq

/-- Round `off` up to the next multiple of `align` (C layout padding). -/
def alignTo (off align : Nat) : Nat :=
  if align = 0 then off else ((off + align - 1) / align) * align

/-- Offsets of the fields of a `repr(C)` struct, laid out in declaration
order with C padding rules: each field starts at the current offset
rounded up to its alignment. Returns `(name, offset)` pairs together with
the end offset. -/
def structOffsetsAux : List CFieldLayout → Nat → List (String × Nat) × Nat
  | [], off => ([], off)
  | f :: fs, off =>
    let start := alignTo off f.alignWords
    let (rest, endOff) := structOffsetsAux fs (start + f.sizeWords)
    ((f.name, start) :: rest, endOff)

/-- Field offsets (in words) of a `repr(C)` struct. -/
def structOffsets (fields : List CFieldLayout) : List (String × Nat) :=
  (structOffsetsAux fields 0).1

/-- Alignment (in words) of a `repr(C)` struct: the maximum field
alignment, at least 1. -/
def structAlignWords (fields : List CFieldLayout) : Nat :=
  fields.foldl (fun a f => max a f.alignWords) 1

/-- Size (in words) of a `repr(C)` struct: the end offset of the last
field rounded up to the struct alignment. -/
def structSizeWords (fields : List CFieldLayout) : Nat :=
  alignTo (structOffsetsAux fields 0).2 (structAlignWords fields)

/-- Layout of `SIZED_BUFFER_TAG`: a `*mut c_uchar` pointer then a `usize`,
each one word in size and alignment. -/
def sizedBufferLayout : List CFieldLayout :=
  [⟨"buffer", 1, 1⟩, ⟨"size", 1, 1⟩]

/-- Layout of `HSM_CLIENT_TPM_INTERFACE_TAG`: every entry is an
`Option<fn ptr>`, one word in size and alignment. -/
def tpmInterfaceLayout : List CFieldLayout :=
  tpmInterfaceFields.map (fun e => ⟨e.1, 1, 1⟩)

/-- Layout of `HSM_CLIENT_X509_INTERFACE_TAG`. -/
def x509InterfaceLayout : List CFieldLayout :=
  x509InterfaceFields.map (fun e => ⟨e.1, 1, 1⟩)

/-- Layout of `HSM_CLIENT_CRYPTO_INTERFACE_TAG`. -/
def cryptoInterfaceLayout : List CFieldLayout :=
  cryptoInterfaceFields.map (fun e => ⟨e.1, 1, 1⟩)

/-- Modelled from the spec: the Crypto backend behind the
`HSM_CLIENT_GET_RANDOM_NUMBER_LIMITS` and `HSM_CLIENT_GET_RANDOM_NUMBER`
operation types is not under `src` (only the C function-pointer types
are).  The backend state carries the declared random-number limits; the
limits out-parameters are `isize` in the binding, so they are `Int`
here. -/
structure CryptoBackendState where
  minRandomNum : Int
  maxRandomNum : Int
  deriving DecidableEq

/-- Modelled from the spec: `get-random-number-limits(handle) → (min, max)
inclusive bounds`.  The reference backend succeeds when its declared
bounds are well-formed (a `usize` random number is returned, so the
bounds must be non-negative and ordered) and reports them unchanged. -/
def get_random_number_limits (st : CryptoBackendState) : Option (Int × Int) :=
  if 0 ≤ st.minRandomNum ∧ st.minRandomNum ≤ st.maxRandomNum then
    some (st.minRandomNum, st.maxRandomNum)
  else none

/-- Modelled from the spec: `get-random-number(handle) → value within
those bounds`.  The reference backend maps an arbitrary entropy word
into the declared inclusive range; the out-parameter is `usize` in the
binding, so the value is a `Nat`. -/
def get_random_number (st : CryptoBackendState) (entropy : Nat) : Option Nat :=
  if 0 ≤ st.minRandomNum ∧ st.minRandomNum ≤ st.maxRandomNum then
    some (st.minRandomNum.toNat
      + entropy % (st.maxRandomNum.toNat - st.minRandomNum.toNat + 1))
  else none

/-- Modelled from the spec: the TPM backend behind
`HSM_CLIENT_DERIVE_AND_SIGN_WITH_IDENTITY` is not under `src`.  A TPM
handle is valid for signing once an identity key has been activated. -/
structure TpmBackendState where
  identityKey : Option (List Nat)
  deriving DecidableEq

/-- Modelled from the spec: the SAS key derived from the root identity
key and the caller identity; it never leaves the backend boundary.  The
derivation is a deterministic byte-level mix over the key and the
identity. -/
def derived_sas_key (key identity : List Nat) : List Nat :=
  (key ++ identity).map (fun b => (b + identity.length) % 256)

/-- Modelled from the spec: the signed digest produced by signing `data`
with the derived SAS key — a deterministic function of the key, the
data and the identity. -/
def sas_digest (key data identity : List Nat) : List Nat :=
  (derived_sas_key key identity ++ data).map (fun b => (b * 31 + data.length) % 256)

/-- Result of a derive-and-sign call: either the required digest size
(null output buffer: sizing-query mode) or the digest bytes. -/
inductive SignOutput where
  | requiredSize (n : Nat)
  | digest (bytes : List Nat)
  deriving DecidableEq

/-- Modelled from the spec:
`derive-and-sign-with-identity(handle, data, identity-salt) →
digest-buffer`; if the output `digest` pointer is null the call still
succeeds and reports the exact required output size with no side effect
on hardware key state.  `none` is the `NotProvisioned` failure on an
un-activated identity key; the backend state is returned alongside the
output to make side effects explicit. -/
def derive_and_sign_with_identity (st : TpmBackendState)
    (data identity : List Nat) (digestBufferNull : Bool) :
    Option (TpmBackendState × SignOutput) :=
  match st.identityKey with
  | none => none
  | some key =>
    if digestBufferNull then
      some (st, SignOutput.requiredSize (sas_digest key data identity).length)
    else
      some (st, SignOutput.digest (sas_digest key data identity))

/-- Claim C1 counterexample: the Crypto capability table
`HSM_CLIENT_CRYPTO_INTERFACE_TAG` contains no entry for the
destroy-certificate-by-id operation — no field has the signature of
`HSM_CLIENT_DESTROY_CERTIFICATE_BY_ID`, and no field is named for it. -/
theorem crypto_interface_lacks_destroy_certificate_by_id :
    (cryptoInterfaceFields.any
      (fun e => e.2 == HSM_CLIENT_DESTROY_CERTIFICATE_BY_ID_SIG)) = false
    ∧ (cryptoInterfaceFields.any
      (fun e => e.1 == "hsm_client_destroy_certificate_by_id")) = false := by
  decide

/-- Claim C1 (amended): the Crypto capability table contains an entry for
destroy-certificate, and the destroy-certificate-by-id operation type is
declared in the binding layer, but the Crypto capability table contains
no entry for the destroy-certificate-by-id operation. -/
theorem crypto_interface_destroy_certificate_entries :
    ("hsm_client_destroy_certificate", HSM_CLIENT_DESTROY_CERTIFICATE_SIG)
      ∈ cryptoInterfaceFields
    ∧ ("HSM_CLIENT_DESTROY_CERTIFICATE_BY_ID",
        HSM_CLIENT_DESTROY_CERTIFICATE_BY_ID_SIG) ∈ declaredOperationTypes
    ∧ (cryptoInterfaceFields.any
      (fun e => e.2 == HSM_CLIENT_DESTROY_CERTIFICATE_BY_ID_SIG)) = false := by
  decide

/-- Claim C2: the encoding tag constants exposed to callers have exactly
the values ASCII = 0, PEM = 1, DER = 2. -/
theorem crypto_encoding_tag_values :
    CRYPTO_ENCODING_TAG_ASCII = 0
    ∧ CRYPTO_ENCODING_TAG_PEM = 1
    ∧ CRYPTO_ENCODING_TAG_DER = 2 := by
  decide

/-- Claim C3: the private-key type tag constants have exactly the values
Unknown = 0, Payload = 1, Reference = 2. -/
theorem private_key_type_tag_values :
    PRIVATE_KEY_TYPE_TAG_PRIVATE_KEY_TYPE_UNKNOWN = 0
    ∧ PRIVATE_KEY_TYPE_TAG_PRIVATE_KEY_TYPE_PAYLOAD = 1
    ∧ PRIVATE_KEY_TYPE_TAG_PRIVATE_KEY_TYPE_REFERENCE = 2 := by
  decide

/-- Claim C4: the certificate-type tag constants have exactly the values
Unknown = 0, Client = 1, Server = 2, CA = 3. -/
theorem certificate_type_tag_values :
    CERTIFICATE_TYPE_TAG_CERTIFICATE_TYPE_UNKNOWN = 0
    ∧ CERTIFICATE_TYPE_TAG_CERTIFICATE_TYPE_CLIENT = 1
    ∧ CERTIFICATE_TYPE_TAG_CERTIFICATE_TYPE_SERVER = 2
    ∧ CERTIFICATE_TYPE_TAG_CERTIFICATE_TYPE_CA = 3 := by
  decide

/-- Claim C5: every operation entry of each of the three capability
tables (TPM, X.509, Crypto) is optional: each entry's type admits the
explicit absent value `none` (the `Option<fn ptr>` `None` of the
binding), exhibited by a table of each type in which every entry holds
that absent value. -/
theorem capability_table_entries_all_optional :
    ((HSM_CLIENT_TPM_INTERFACE_TAG.mk none none none none none none none
        none).hsm_client_tpm_create = none
      ∧ (HSM_CLIENT_TPM_INTERFACE_TAG.mk none none none none none none none
        none).hsm_client_tpm_destroy = none
      ∧ (HSM_CLIENT_TPM_INTERFACE_TAG.mk none none none none none none none
        none).hsm_client_activate_identity_key = none
      ∧ (HSM_CLIENT_TPM_INTERFACE_TAG.mk none none none none none none none
        none).hsm_client_get_ek = none
      ∧ (HSM_CLIENT_TPM_INTERFACE_TAG.mk none none none none none none none
        none).hsm_client_get_srk = none
      ∧ (HSM_CLIENT_TPM_INTERFACE_TAG.mk none none none none none none none
        none).hsm_client_sign_with_identity = none
      ∧ (HSM_CLIENT_TPM_INTERFACE_TAG.mk none none none none none none none
        none).hsm_client_derive_and_sign_with_identity = none
      ∧ (HSM_CLIENT_TPM_INTERFACE_TAG.mk none none none none none none none
        none).hsm_client_free_buffer = none)
    ∧ ((HSM_CLIENT_X509_INTERFACE_TAG.mk none none none none none
        none).hsm_client_x509_create = none
      ∧ (HSM_CLIENT_X509_INTERFACE_TAG.mk none none none none none
        none).hsm_client_x509_destroy = none
      ∧ (HSM_CLIENT_X509_INTERFACE_TAG.mk none none none none none
        none).hsm_client_get_cert = none
      ∧ (HSM_CLIENT_X509_INTERFACE_TAG.mk none none none none none
        none).hsm_client_get_key = none
      ∧ (HSM_CLIENT_X509_INTERFACE_TAG.mk none none none none none
        none).hsm_client_get_common_name = none
      ∧ (HSM_CLIENT_X509_INTERFACE_TAG.mk none none none none none
        none).hsm_client_free_buffer = none)
    ∧ ((HSM_CLIENT_CRYPTO_INTERFACE_TAG.mk none none none none none none
        none none none none none).hsm_client_crypto_create = none
      ∧ (HSM_CLIENT_CRYPTO_INTERFACE_TAG.mk none none none none none none
        none none none none none).hsm_client_crypto_destroy = none
      ∧ (HSM_CLIENT_CRYPTO_INTERFACE_TAG.mk none none none none none none
        none none none none none).hsm_client_get_random_number_limits = none
      ∧ (HSM_CLIENT_CRYPTO_INTERFACE_TAG.mk none none none none none none
        none none none none none).hsm_client_get_random_number = none
      ∧ (HSM_CLIENT_CRYPTO_INTERFACE_TAG.mk none none none none none none
        none none none none none).hsm_client_create_master_encryption_key = none
      ∧ (HSM_CLIENT_CRYPTO_INTERFACE_TAG.mk none none none none none none
        none none none none none).hsm_client_destroy_master_encryption_key = none
      ∧ (HSM_CLIENT_CRYPTO_INTERFACE_TAG.mk none none none none none none
        none none none none none).hsm_client_create_certificate = none
      ∧ (HSM_CLIENT_CRYPTO_INTERFACE_TAG.mk none none none none none none
        none none none none none).hsm_client_destroy_certificate = none
      ∧ (HSM_CLIENT_CRYPTO_INTERFACE_TAG.mk none none none none none none
        none none none none none).hsm_client_encrypt_data = none
      ∧ (HSM_CLIENT_CRYPTO_INTERFACE_TAG.mk none none none none none none
        none none none none none).hsm_client_decrypt_data = none
      ∧ (HSM_CLIENT_CRYPTO_INTERFACE_TAG.mk none none none none none none
        none none none none none).hsm_client_free_buffer = none) := by
  decide

/-- Claim C6: each of the three interface families has a distinct paired
module lifecycle among the binding's lifecycle functions: an init
function returning an integer status (`c_int`) and a deinit function
returning nothing. -/
theorem module_lifecycle_paired_init_deinit :
    (("hsm_client_tpm_init", (⟨[], CType.cInt⟩ : CFnSig)) ∈ moduleLifecycleFuns
      ∧ ("hsm_client_tpm_deinit", (⟨[], CType.void⟩ : CFnSig))
        ∈ moduleLifecycleFuns)
    ∧ (("hsm_client_x509_init", (⟨[], CType.cInt⟩ : CFnSig))
        ∈ moduleLifecycleFuns
      ∧ ("hsm_client_x509_deinit", (⟨[], CType.void⟩ : CFnSig))
        ∈ moduleLifecycleFuns)
    ∧ (("hsm_client_crypto_init", (⟨[], CType.cInt⟩ : CFnSig))
        ∈ moduleLifecycleFuns
      ∧ ("hsm_client_crypto_deinit", (⟨[], CType.void⟩ : CFnSig))
        ∈ moduleLifecycleFuns)
    ∧ ("hsm_client_tpm_init" ≠ "hsm_client_x509_init"
      ∧ "hsm_client_tpm_init" ≠ "hsm_client_crypto_init"
      ∧ "hsm_client_x509_init" ≠ "hsm_client_crypto_init"
      ∧ "hsm_client_tpm_deinit" ≠ "hsm_client_x509_deinit"
      ∧ "hsm_client_tpm_deinit" ≠ "hsm_client_crypto_deinit"
      ∧ "hsm_client_x509_deinit" ≠ "hsm_client_crypto_deinit") := by
  decide

/-- Claim C7: on a Crypto backend, if get-random-number-limits succeeds
returning bounds (lo, hi), then every value returned by a successful
get-random-number call on the same backend state lies within lo and hi
inclusive. -/
theorem get_random_number_within_limits (st : CryptoBackendState)
    (lo hi : Int) (entropy r : Nat)
    (hl : get_random_number_limits st = some (lo, hi))
    (hr : get_random_number st entropy = some r) :
    lo ≤ (r : Int) ∧ (r : Int) ≤ hi := by
  unfold get_random_number_limits at hl
  unfold get_random_number at hr
  split_ifs at hl hr with h
  · obtain ⟨h0, hle⟩ := h
    simp only [Option.some.injEq, Prod.mk.injEq] at hl hr
    obtain ⟨hlo, hhi⟩ := hl
    subst hlo
    subst hhi
    subst hr
    have hmod : entropy
        % (st.maxRandomNum.toNat - st.minRandomNum.toNat + 1)
        < st.maxRandomNum.toNat - st.minRandomNum.toNat + 1 :=
      Nat.mod_lt _ (Nat.succ_pos _)
    omega

/-- Witness for C7 at the backend state with limits 2 and 10 and entropy
word 7: the returned value 9 lies within the limits. -/
theorem get_random_number_within_limits_witness :
    get_random_number_limits ⟨2, 10⟩ = some (2, 10)
    ∧ get_random_number ⟨2, 10⟩ 7 = some 9
    ∧ (2 ≤ ((9 : Nat) : Int) ∧ ((9 : Nat) : Int) ≤ 10) :=
  ⟨by decide, by decide,
    get_random_number_within_limits ⟨2, 10⟩ 2 10 7 9 (by decide) (by decide)⟩

/-- Claim C8: on a TPM backend with an activated identity key, the
derive-and-sign sizing query (null digest buffer) succeeds, leaves the
backend state unchanged, and reports exactly the length of the digest a
real call with the same inputs produces — which also leaves the state
unchanged. -/
theorem derive_and_sign_null_buffer_sizing (st : TpmBackendState)
    (data identity key : List Nat)
    (h : st.identityKey = some key) :
    ∃ n d, derive_and_sign_with_identity st data identity true
        = some (st, SignOutput.requiredSize n)
      ∧ derive_and_sign_with_identity st data identity false
        = some (st, SignOutput.digest d)
      ∧ d.length = n := by
  refine ⟨(sas_digest key data identity).length, sas_digest key data identity,
    ?_, ?_, rfl⟩
  · simp [derive_and_sign_with_identity, h]
  · simp [derive_and_sign_with_identity, h]

/-- Witness for C8 at a backend provisioned with identity key [1, 2, 3],
data [4, 5] and identity [6]. -/
theorem derive_and_sign_null_buffer_sizing_witness :
    (⟨some [1, 2, 3]⟩ : TpmBackendState).identityKey = some [1, 2, 3]
    ∧ ∃ n d, derive_and_sign_with_identity ⟨some [1, 2, 3]⟩ [4, 5] [6] true
        = some (⟨some [1, 2, 3]⟩, SignOutput.requiredSize n)
      ∧ derive_and_sign_with_identity ⟨some [1, 2, 3]⟩ [4, 5] [6] false
        = some (⟨some [1, 2, 3]⟩, SignOutput.digest d)
      ∧ d.length = n :=
  ⟨rfl, derive_and_sign_null_buffer_sizing ⟨some [1, 2, 3]⟩ [4, 5] [6]
    [1, 2, 3] rfl⟩

/-- Claim C9: the `Default` value of each of the three capability tables
has every operation entry absent: a default-constructed table reports
every capability as unsupported. -/
theorem default_capability_tables_all_absent :
    (HSM_CLIENT_TPM_INTERFACE_TAG.default.hsm_client_tpm_create = none
      ∧ HSM_CLIENT_TPM_INTERFACE_TAG.default.hsm_client_tpm_destroy = none
      ∧ HSM_CLIENT_TPM_INTERFACE_TAG.default.hsm_client_activate_identity_key
        = none
      ∧ HSM_CLIENT_TPM_INTERFACE_TAG.default.hsm_client_get_ek = none
      ∧ HSM_CLIENT_TPM_INTERFACE_TAG.default.hsm_client_get_srk = none
      ∧ HSM_CLIENT_TPM_INTERFACE_TAG.default.hsm_client_sign_with_identity
        = none
      ∧ HSM_CLIENT_TPM_INTERFACE_TAG.default.hsm_client_derive_and_sign_with_identity
        = none
      ∧ HSM_CLIENT_TPM_INTERFACE_TAG.default.hsm_client_free_buffer = none)
    ∧ (HSM_CLIENT_X509_INTERFACE_TAG.default.hsm_client_x509_create = none
      ∧ HSM_CLIENT_X509_INTERFACE_TAG.default.hsm_client_x509_destroy = none
      ∧ HSM_CLIENT_X509_INTERFACE_TAG.default.hsm_client_get_cert = none
      ∧ HSM_CLIENT_X509_INTERFACE_TAG.default.hsm_client_get_key = none
      ∧ HSM_CLIENT_X509_INTERFACE_TAG.default.hsm_client_get_common_name
        = none
      ∧ HSM_CLIENT_X509_INTERFACE_TAG.default.hsm_client_free_buffer = none)
    ∧ (HSM_CLIENT_CRYPTO_INTERFACE_TAG.default.hsm_client_crypto_create = none
      ∧ HSM_CLIENT_CRYPTO_INTERFACE_TAG.default.hsm_client_crypto_destroy
        = none
      ∧ HSM_CLIENT_CRYPTO_INTERFACE_TAG.default.hsm_client_get_random_number_limits
        = none
      ∧ HSM_CLIENT_CRYPTO_INTERFACE_TAG.default.hsm_client_get_random_number
        = none
      ∧ HSM_CLIENT_CRYPTO_INTERFACE_TAG.default.hsm_client_create_master_encryption_key
        = none
      ∧ HSM_CLIENT_CRYPTO_INTERFACE_TAG.default.hsm_client_destroy_master_encryption_key
        = none
      ∧ HSM_CLIENT_CRYPTO_INTERFACE_TAG.default.hsm_client_create_certificate
        = none
      ∧ HSM_CLIENT_CRYPTO_INTERFACE_TAG.default.hsm_client_destroy_certificate
        = none
      ∧ HSM_CLIENT_CRYPTO_INTERFACE_TAG.default.hsm_client_encrypt_data = none
      ∧ HSM_CLIENT_CRYPTO_INTERFACE_TAG.default.hsm_client_decrypt_data = none
      ∧ HSM_CLIENT_CRYPTO_INTERFACE_TAG.default.hsm_client_free_buffer
        = none) := by
  decide

/-- Claim C10: every layout assertion of the bindgen layout tests holds
in the `repr(C)` layout model: `SIZED_BUFFER_TAG` occupies two
pointer-sized words with `buffer` at word 0 and `size` at word 1, and
the TPM, X.509 and Crypto tables occupy 8, 6 and 11 words with each
entry at the word offset matching its declaration order; all four are
word-aligned. -/
theorem bindgen_layout_assertions_hold :
    (structSizeWords sizedBufferLayout = 2
      ∧ structAlignWords sizedBufferLayout = 1
      ∧ structOffsets sizedBufferLayout = [("buffer", 0), ("size", 1)])
    ∧ (structSizeWords tpmInterfaceLayout = 8
      ∧ structAlignWords tpmInterfaceLayout = 1
      ∧ structOffsets tpmInterfaceLayout =
        [("hsm_client_tpm_create", 0),
         ("hsm_client_tpm_destroy", 1),
         ("hsm_client_activate_identity_key", 2),
         ("hsm_client_get_ek", 3),
         ("hsm_client_get_srk", 4),
         ("hsm_client_sign_with_identity", 5),
         ("hsm_client_derive_and_sign_with_identity", 6),
         ("hsm_client_free_buffer", 7)])
    ∧ (structSizeWords x509InterfaceLayout = 6
      ∧ structAlignWords x509InterfaceLayout = 1
      ∧ structOffsets x509InterfaceLayout =
        [("hsm_client_x509_create", 0),
         ("hsm_client_x509_destroy", 1),
         ("hsm_client_get_cert", 2),
         ("hsm_client_get_key", 3),
         ("hsm_client_get_common_name", 4),
         ("hsm_client_free_buffer", 5)])
    ∧ (structSizeWords cryptoInterfaceLayout = 11
      ∧ structAlignWords cryptoInterfaceLayout = 1
      ∧ structOffsets cryptoInterfaceLayout =
        [("hsm_client_crypto_create", 0),
         ("hsm_client_crypto_destroy", 1),
         ("hsm_client_get_random_number_limits", 2),
         ("hsm_client_get_random_number", 3),
         ("hsm_client_create_master_encryption_key", 4),
         ("hsm_client_destroy_master_encryption_key", 5),
         ("hsm_client_create_certificate", 6),
         ("hsm_client_destroy_certificate", 7),
         ("hsm_client_encrypt_data", 8),
         ("hsm_client_decrypt_data", 9),
         ("hsm_client_free_buffer", 10)]) := by
  decide
